import Mathlib

/-!
# Verification of the bulk-operations mixin layer

Shallow embedding of `rest_framework_bulk/drf3/mixins.py`: the payload
resolution decorator, `BulkCreateModelMixin.create`,
`BulkUpdateModelMixin.get_object` / `bulk_update` / `partial_bulk_update`,
and `BulkDestroyModelMixin.allow_bulk_destroy` / `bulk_destroy` /
`perform_destroy` / `perform_bulk_destroy`.

Python runtime behaviour relevant to this module is made explicit:
a tuple does not support string subscripts (reading or writing raises
`TypeError`), and looking up an attribute that no class in the hierarchy
defines raises `AttributeError`.
-/

namespace BulkMixins

/-- A JSON-like Python value, as produced by the request parsers. -/
inductive PyVal where
  | str : String → PyVal
  | bool : Bool → PyVal
  | none : PyVal
  | vlist : List PyVal → PyVal
  | vdict : List (String × PyVal) → PyVal

/-- Exceptions that the embedded code can raise. -/
inductive PyExc where
  /-- e.g. subscripting a tuple with a string, or assigning into a tuple -/
  | typeError
  /-- attribute lookup on an instance whose classes never define it -/
  | attributeError
  /-- missing key on a dict subscript -/
  | keyError
  /-- `serializers.ValidationError`: per-record aggregated messages -/
  | validationError (detail : List (List String))
  /-- `Http404` raised by the generic single-object lookup -/
  | http404
  deriving DecidableEq, Repr

/-- Parsed request data (`request.data`): a JSON object or a JSON array.
DRF's parsers hand the handler one of these two shapes. -/
inductive ReqData where
  | dict : List (String × PyVal) → ReqData
  | list : List PyVal → ReqData

/-- View `request.data` as a plain Python value. -/
def ReqData.toVal : ReqData → PyVal
  | .dict fs => .vdict fs
  | .list xs => .vlist xs

/-- Python `k in request.data`: key membership for a dict; for a list,
membership of `k` among the elements (an element equal to the string `k`). -/
def ReqData.containsKey : ReqData → String → Bool
  | .dict fs, k => fs.any (fun p => p.1 == k)
  | .list xs, k => xs.any (fun v => match v with | .str s => s == k | _ => false)

/-- Python `request.data[k]` with a string subscript: dict lookup
(`KeyError` when absent); on a list a string index raises `TypeError`. -/
def ReqData.getItem : ReqData → String → Except PyExc PyVal
  | .dict fs, k =>
    match fs.find? (fun p => p.1 == k) with
    | some p => .ok p.2
    | Option.none => .error .keyError
  | .list _, _ => .error .typeError

/-- The HTTP request object. `csv_with_keys` is the attribute the decorator
sets on it before resolving the payload. -/
structure Request where
  data : ReqData
  csv_with_keys : Bool := false

/-- A DRF `Response(data, status=...)`; `Response(status=...)` leaves the
body empty (`data = none`). -/
structure Response where
  status : Nat
  body : Option PyVal

/-- Keyword arguments dictionary (`**kwargs`). -/
abbrev KwArgs := List (String × PyVal)

/-- Python dict assignment `d[k] = v`: replace the value of an existing key
in place, else append the new key at the end. -/
def dictSet : KwArgs → String → PyVal → KwArgs
  | [], k, v => [(k, v)]
  | p :: rest, k, v =>
    if p.1 == k then (k, v) :: rest else p :: dictSet rest k v

/-- Python `d.pop(k, default)`: the stored value (or the default when the
key is absent) together with the dict without that key. -/
def dictPop : KwArgs → String → PyVal → PyVal × KwArgs
  | [], _, dflt => (dflt, [])
  | p :: rest, k, dflt =>
    if p.1 == k then (p.2, rest)
    else
      let r := dictPop rest k dflt
      (r.1, p :: r.2)

/-- Python truthiness of a value. -/
def pyTruthy : PyVal → Bool
  | .bool b => b
  | .none => false
  | .str s => s != ""
  | .vlist xs => !xs.isEmpty
  | .vdict fs => !fs.isEmpty

/-- Python tuple item assignment `t[k] = v` with a string key: tuples do not
support item assignment, so this raises `TypeError` whatever the operands. -/
def tupleSetItem (_args : List PyVal) (_k : String) (_v : PyVal) :
    Except PyExc Unit :=
  .error .typeError

/-- Python tuple subscript `t[k]` with a string key: tuple indices must be
integers, so this raises `TypeError` whatever the operands. -/
def tupleGetItem (_args : List PyVal) (_k : String) : Except PyExc PyVal :=
  .error .typeError

/- ## The payload-resolution decorator -/

/-- `inst.acceptable_csv_file_name`, as attribute lookup sees it: the
argument is `Option.none` when no class in the instance's hierarchy defines
the attribute (a view using only `BulkCreateModelMixin`), in which case the
lookup raises `AttributeError`; it is `some v` when the attribute is
defined with value `v`, where `v = Option.none` models Python `None` (the
`BulkUpdateModelMixin` class default) and `v = some s` a configured
field name. -/
def getattrAcceptableCsvFileName (attr : Option (Option String)) :
    Except PyExc (Option String) :=
  match attr with
  | Option.none => .error .attributeError
  | some v => .ok v

/-- Truthiness of the `acceptable_csv_file_name` value: Python `None` and
the empty string are falsy, any other string is truthy. -/
def truthyName : Option String → Bool
  | Option.none => false
  | some s => s != ""

/-- The module-level `decorator(fn)`, i.e. its `inner(inst, request, *args,
**kwargs)`: set `request.csv_with_keys = True`; if the configured field
name is truthy and present in `request.data`, store that field's value as
`args['data']`, else store `request.data` itself; then run the wrapped
handler. `args` here is the positional-argument tuple, so both stores are
`tupleSetItem` (which raises `TypeError`); the matches spell out the
exception propagation of each statement in order. -/
def decorator {α : Type} (fn : Request → List PyVal → KwArgs → Except PyExc α)
    (attr : Option (Option String)) (request : Request) (args : List PyVal)
    (kwargs : KwArgs) : Except PyExc α :=
  let request := { request with csv_with_keys := true }
  match getattrAcceptableCsvFileName attr with
  | .error e => .error e
  | .ok name =>
    if truthyName name && request.data.containsKey (name.getD "") then
      match request.data.getItem (name.getD "") with
      | .error e => .error e
      | .ok v =>
        match tupleSetItem args "data" v with
        | .error e => .error e
        | .ok _ => fn request args kwargs
    else
      match tupleSetItem args "data" request.data.toVal with
      | .error e => .error e
      | .ok _ => fn request args kwargs

/- ## Serializer collaborators (external to this layer) -/

/-- `isinstance(data, list)`. -/
def PyVal.isList : PyVal → Bool
  | .vlist _ => true
  | _ => false

/-- `serializer.is_valid(raise_exception=True)` on a `many=True` serializer
(external collaborator): non-list data is rejected outright; otherwise
per-record validation results are aggregated, and a `ValidationError`
carrying every record's messages is raised when any record fails; on
success the validated records are returned. -/
def manySerializerIsValid (validateRecord : PyVal → Option (List String)) :
    PyVal → Except PyExc (List PyVal)
  | .vlist rs =>
    if rs.any (fun r => (validateRecord r).isSome) then
      .error (.validationError (rs.map (fun r => (validateRecord r).getD [])))
    else
      .ok rs
  | _ => .error (.validationError [["Expected a list of items."]])

/- ## BulkCreateModelMixin -/

/-- The collaborators a `BulkCreateModelMixin` view instance closes over. -/
structure CreateView where
  /-- `acceptable_csv_file_name` as attribute lookup sees it (see
  `getattrAcceptableCsvFileName`); `BulkCreateModelMixin` itself never
  defines it. -/
  acceptable_csv_file_name : Option (Option String)
  /-- single-record serializer validation: `Option.none` when the record is
  valid, `some messages` otherwise (external serializer). -/
  validateRecord : PyVal → Option (List String)
  /-- `CreateModelMixin.create`, the standard single-object create path
  (external): database before → (database after, response). -/
  super_create : List PyVal → Request → List PyVal → KwArgs →
      Except PyExc (List PyVal × Response)

/-- The body of `BulkCreateModelMixin.create` (the function `decorator`
wraps): read `args['data']`; when it is not a list, delegate to
`CreateModelMixin.create` unchanged; when it is a list, validate through a
`many=True` serializer, persist via `perform_bulk_create` (which calls
`perform_create`, i.e. `serializer.save()`, appending every validated
record to the database) and answer 201 with the created representations. -/
def create_fn (view : CreateView) (db : List PyVal) (request : Request)
    (args : List PyVal) (kwargs : KwArgs) :
    Except PyExc (List PyVal × Response) :=
  match tupleGetItem args "data" with
  | .error e => .error e
  | .ok data =>
    if !data.isList then
      view.super_create db request args kwargs
    else
      match manySerializerIsValid view.validateRecord data with
      | .error e => .error e
      | .ok records => .ok (db ++ records, ⟨201, some (.vlist records)⟩)

/-- The public `BulkCreateModelMixin.create` entry point: the body wrapped
in `decorator`. -/
def create (view : CreateView) (db : List PyVal) (request : Request)
    (args : List PyVal) (kwargs : KwArgs) :
    Except PyExc (List PyVal × Response) :=
  decorator (create_fn view db) view.acceptable_csv_file_name request args kwargs

/- ## BulkUpdateModelMixin -/

/-- A Django queryset handle. `refId` models Python object identity: two
queryset objects are the same object (`a is b`) exactly when their `refId`s
coincide; `items` are the primary keys of the records the set evaluates to. -/
structure QuerySet where
  refId : Nat
  items : List Nat
  deriving DecidableEq, Repr

/-- The collaborators a `BulkUpdateModelMixin` view instance closes over. -/
structure UpdateView where
  /-- the class sets `acceptable_csv_file_name = None`; a subclass may
  override it with a field name, but it is always defined. -/
  acceptable_csv_file_name : Option String
  /-- single-record serializer validation (external). -/
  validateRecord : PyVal → Option (List String)
  get_queryset : QuerySet
  filter_queryset : QuerySet → QuerySet
  /-- `serializer.save()` on a `many=True` serializer bound to the filtered
  queryset (external): database, target set, validated records, `partial`
  flag → database after. -/
  serializer_save : List PyVal → QuerySet → List PyVal → Bool → List PyVal
  /-- `serializer.data` after save (external). -/
  serializer_data : QuerySet → List PyVal → Bool → PyVal
  /-- `lookup_url_kwarg` (`None` by default). -/
  lookup_url_kwarg : Option String
  /-- `lookup_field` (`"pk"` by default). -/
  lookup_field : String
  /-- `self.kwargs`, the URL keyword arguments of the request. -/
  kwargs : List (String × String)
  /-- `GenericAPIView.get_object` (external): the standard single-object
  lookup, which may raise `Http404`. -/
  super_get_object : Except PyExc PyVal

/-- Python `self.lookup_url_kwarg or self.lookup_field`: `None` and the
empty string are falsy, so they fall through to the right operand. -/
def pyOrStr (a : Option String) (b : String) : String :=
  match a with
  | Option.none => b
  | some s => if s == "" then b else s

/-- `BulkUpdateModelMixin.get_object`: when the lookup kwarg is present in
`self.kwargs` delegate to the standard single-object lookup; otherwise
`return` (Python `None`) instead of raising a not-found error. -/
def get_object (view : UpdateView) : Except PyExc (Option PyVal) :=
  let lookup_url_kwarg := pyOrStr view.lookup_url_kwarg view.lookup_field
  if view.kwargs.any (fun p => p.1 == lookup_url_kwarg) then
    match view.super_get_object with
    | .error e => .error e
    | .ok obj => .ok (some obj)
  else
    .ok Option.none

/-- The body of `BulkUpdateModelMixin.bulk_update` (the function
`decorator` wraps): read `args['data']`, pop the `partial` flag (default
`False`), build a `many=True` serializer over the filtered queryset with
the data and the flag, validate, persist via `perform_bulk_update`
(= `perform_update`, i.e. `serializer.save()`), and answer 200 with the
updated representations. -/
def bulk_update_fn (view : UpdateView) (db : List PyVal) (request : Request)
    (args : List PyVal) (kwargs : KwArgs) :
    Except PyExc (List PyVal × Response) :=
  match tupleGetItem args "data" with
  | .error e => .error e
  | .ok data =>
    let partialFlag := pyTruthy (dictPop kwargs "partial" (.bool false)).1
    let filtered := view.filter_queryset view.get_queryset
    match manySerializerIsValid view.validateRecord data with
    | .error e => .error e
    | .ok records =>
      .ok (view.serializer_save db filtered records partialFlag,
           ⟨200, some (view.serializer_data filtered records partialFlag)⟩)

/-- The public `BulkUpdateModelMixin.bulk_update` entry point: the body
wrapped in `decorator`; `acceptable_csv_file_name` is always defined here
(the class default is `None`). -/
def bulk_update (view : UpdateView) (db : List PyVal) (request : Request)
    (args : List PyVal) (kwargs : KwArgs) :
    Except PyExc (List PyVal × Response) :=
  decorator (bulk_update_fn view db) (some view.acceptable_csv_file_name)
    request args kwargs

/-- `BulkUpdateModelMixin.partial_bulk_update`: set `kwargs['partial'] =
True` and call `self.bulk_update` (the decorated entry point) with the same
request and arguments. -/
def partial_bulk_update (view : UpdateView) (db : List PyVal)
    (request : Request) (args : List PyVal) (kwargs : KwArgs) :
    Except PyExc (List PyVal × Response) :=
  bulk_update view db request args (dictSet kwargs "partial" (.bool true))

/- ## BulkDestroyModelMixin -/

/-- `BulkDestroyModelMixin.allow_bulk_destroy(self, qs, filtered)`:
`return qs is not filtered` — an identity, not content, comparison. -/
def allow_bulk_destroy (qs filtered : QuerySet) : Bool :=
  qs.refId != filtered.refId

/-- `BulkDestroyModelMixin.perform_destroy(self, instance)`:
`instance.delete()` removes that record from the database. -/
def perform_destroy (db : List Nat) (inst : Nat) : List Nat :=
  db.filter (fun r => r != inst)

/-- `BulkDestroyModelMixin.perform_bulk_destroy(self, objects)`:
`for obj in objects: self.perform_destroy(obj)`. -/
def perform_bulk_destroy (db : List Nat) (objects : QuerySet) : List Nat :=
  objects.items.foldl perform_destroy db

/-- The state a `BulkDestroyModelMixin` view closes over: the database,
`get_queryset`, and `filter_queryset` (the external filter backends). -/
structure DestroyView where
  db : List Nat
  get_queryset : QuerySet
  filter_queryset : QuerySet → QuerySet

/-- `BulkDestroyModelMixin.bulk_destroy(self, request, *args, **kwargs)`:
guard with `allow_bulk_destroy`, answer 400 untouched if refused, else
delete the filtered records and answer 204 with an empty body.
Returns the database after the call together with the response. -/
def bulk_destroy (view : DestroyView) : List Nat × Response :=
  let qs := view.get_queryset
  let filtered := view.filter_queryset qs
  if !(allow_bulk_destroy qs filtered) then
    (view.db, ⟨400, Option.none⟩)
  else
    (perform_bulk_destroy view.db filtered, ⟨204, Option.none⟩)

/- ## Example instances (used by concrete evaluations and witnesses) -/

/-- A record the example serializer accepts. -/
def okRecord : PyVal := .vdict [("name", .str "a")]

/-- A record the example serializer rejects. -/
def badRecord : PyVal := .vdict [("oops", .str "a")]

/-- Example single-record validation: a record must carry a `name` field. -/
def exValidateRecord : PyVal → Option (List String)
  | .vdict fs =>
    if fs.any (fun p => p.1 == "name") then Option.none
    else some ["name: This field is required."]
  | _ => some ["Invalid data. Expected a dictionary."]

/-- A view using only `BulkCreateModelMixin`: `acceptable_csv_file_name`
is nowhere defined. -/
def exCreateView : CreateView where
  acceptable_csv_file_name := Option.none
  validateRecord := exValidateRecord
  super_create := fun db request _ _ =>
    .ok (db ++ [request.data.toVal], ⟨201, some request.data.toVal⟩)

/-- A create view that also mixes in `BulkUpdateModelMixin`, whose class
attribute sets `acceptable_csv_file_name = None`. -/
def exCreateViewWithNone : CreateView :=
  { exCreateView with acceptable_csv_file_name := some Option.none }

/-- An update view with the class defaults and an identity filter. -/
def exUpdateView : UpdateView where
  acceptable_csv_file_name := Option.none
  validateRecord := exValidateRecord
  get_queryset := ⟨0, [1, 2, 3]⟩
  filter_queryset := fun qs => qs
  serializer_save := fun db _ records _ => db ++ records
  serializer_data := fun _ records _ => .vlist records
  lookup_url_kwarg := Option.none
  lookup_field := "pk"
  kwargs := []
  super_get_object := .ok (.vdict [("pk", .str "1")])

/-- An update view whose subclass configures `acceptable_csv_file_name`. -/
def exUpdateViewCsv : UpdateView :=
  { exUpdateView with acceptable_csv_file_name := some "csv_file" }

/-- An update view whose URL kwargs contain the lookup field. -/
def exUpdateViewWithPk : UpdateView :=
  { exUpdateView with kwargs := [("pk", "1")] }

/-- A destroy view whose filter pipeline applies nothing and hands back
the very queryset object it was given. -/
def exDestroyView : DestroyView where
  db := [1, 2, 3, 4, 5]
  get_queryset := ⟨7, [1, 2, 3, 4, 5]⟩
  filter_queryset := fun qs => qs

/-- A destroy view whose filter narrows {1,2,3,4,5} to {2,4}, returning a
fresh queryset object. -/
def exDestroyViewFiltered : DestroyView where
  db := [1, 2, 3, 4, 5]
  get_queryset := ⟨7, [1, 2, 3, 4, 5]⟩
  filter_queryset := fun _ => ⟨8, [2, 4]⟩

/- ## Lemmas -/

/-- A key contained in the request data makes the string subscript either
succeed (dict shape) or raise `TypeError` (list shape). -/
theorem getItem_of_containsKey (d : ReqData) (k : String)
    (h : d.containsKey k = true) :
    (∃ v, d.getItem k = .ok v) ∨ d.getItem k = .error .typeError := by
  cases d with
  | dict fs =>
    left
    cases hf : fs.find? (fun p => p.1 == k) with
    | none =>
      exfalso
      simp only [ReqData.containsKey, List.any_eq_true] at h
      obtain ⟨p, hp, hk⟩ := h
      exact absurd hk (by simpa using List.find?_eq_none.mp hf p hp)
    | some p => exact ⟨p.2, by simp [ReqData.getItem, hf]⟩
  | list xs => right; rfl

/-- Every decorated call raises before reaching the wrapped handler:
`AttributeError` when `acceptable_csv_file_name` is nowhere defined,
`TypeError` (from the tuple item assignment, or from the string subscript
on list-shaped data) when it is defined. -/
theorem decorator_eq {α : Type}
    (fn : Request → List PyVal → KwArgs → Except PyExc α)
    (attr : Option (Option String)) (request : Request) (args : List PyVal)
    (kwargs : KwArgs) :
    decorator fn attr request args kwargs =
      .error (match attr with
        | Option.none => PyExc.attributeError
        | some _ => PyExc.typeError) := by
  cases attr with
  | none => rfl
  | some name =>
    simp only [decorator, getattrAcceptableCsvFileName]
    by_cases hc : (truthyName name &&
        ({ request with csv_with_keys := true } : Request).data.containsKey
          (name.getD "")) = true
    · rw [if_pos hc]
      have h2 := ((Bool.and_eq_true _ _).mp hc).2
      rcases getItem_of_containsKey _ _ h2 with ⟨v, hv⟩ | hv
      · rw [hv]; rfl
      · rw [hv]
    · rw [if_neg hc]; rfl

/-- Folding single-record deletion over a list removes exactly its members. -/
theorem foldl_perform_destroy (objs : List Nat) (db : List Nat) :
    objs.foldl perform_destroy db = db.filter (fun r => !(objs.contains r)) := by
  induction objs generalizing db with
  | nil => simp [List.filter_eq_self]
  | cons a l ih =>
    rw [List.foldl_cons, ih]
    simp only [perform_destroy, List.filter_filter]
    apply List.filter_congr
    intro x _
    by_cases hx : x = a
    · subst hx; simp
    · simp [hx, bne, Ne.symm hx]

/-- `perform_bulk_destroy` keeps exactly the records outside the target
queryset. -/
theorem perform_bulk_destroy_eq_filter (db : List Nat) (objects : QuerySet) :
    perform_bulk_destroy db objects =
      db.filter (fun r => !(objects.items.contains r)) :=
  foldl_perform_destroy objects.items db

/-- Popping a key just stored by dict assignment yields the stored value. -/
theorem dictPop_dictSet (d : KwArgs) (k : String) (v dflt : PyVal) :
    (dictPop (dictSet d k v) k dflt).1 = v := by
  induction d with
  | nil => simp [dictSet, dictPop]
  | cons p rest ih =>
    simp only [dictSet]
    by_cases h : (p.1 == k) = true
    · rw [if_pos h]
      simp [dictPop]
    · rw [if_neg h]
      simp only [dictPop, if_neg h]
      exact ih

/- ## Claim theorems -/

/-- Claim C1 (failing evaluation): payload resolution never completes. On
a view where `acceptable_csv_file_name` is undefined the attribute lookup
raises `AttributeError`; where it is `None` the raw body is selected but
the store into the positional-argument tuple raises `TypeError`; where it
is configured and the field is present in the data, the field's value is
selected but the same store raises `TypeError`. No resolved payload is
ever passed to the handler logic, contrary to the claim. -/
theorem payload_resolution_never_completes :
    create exCreateView [] ⟨.dict [("name", .str "x")], false⟩ [] []
      = .error .attributeError ∧
    bulk_update exUpdateView [] ⟨.list [okRecord], false⟩ [] []
      = .error .typeError ∧
    bulk_update exUpdateViewCsv []
        ⟨.dict [("csv_file", .vlist [okRecord])], false⟩ [] []
      = .error .typeError :=
  ⟨rfl, rfl, rfl⟩

/-- Claim C2: every invocation of the public `create` or `bulk_update`
entry points raises inside the payload-resolution wrapper — an
`AttributeError` from looking up `acceptable_csv_file_name` (which
`BulkCreateModelMixin` never defines) or a `TypeError` from the
string-keyed assignment into the positional-argument tuple — before the
wrapped handler body runs; the decorated call's outcome does not depend on
the wrapped handler at all, so no validation and no persistence ever
occurs through these entry points. -/
theorem create_bulk_update_always_raise (cv : CreateView) (uv : UpdateView)
    (db : List PyVal) (request : Request) (args : List PyVal)
    (kwargs : KwArgs) :
    (create cv db request args kwargs = .error .attributeError ∨
     create cv db request args kwargs = .error .typeError) ∧
    bulk_update uv db request args kwargs = .error .typeError ∧
    (∀ (fn fn' : Request → List PyVal → KwArgs →
          Except PyExc (List PyVal × Response))
       (attr : Option (Option String)),
       decorator fn attr request args kwargs
         = decorator fn' attr request args kwargs) := by
  refine ⟨?_, ?_, ?_⟩
  · cases hA : cv.acceptable_csv_file_name with
    | none =>
      left
      rw [create, hA]
      exact decorator_eq _ _ _ _ _
    | some v =>
      right
      rw [create, hA]
      exact decorator_eq _ _ _ _ _
  · rw [bulk_update]
    exact decorator_eq _ _ _ _ _
  · intro fn fn' attr
    rw [decorator_eq, decorator_eq]

/-- Claim C3: when the filter pipeline hands back the very queryset object
it was given (no filters applied), `bulk_destroy` deletes no records and
answers with a 400 client-error response. -/
theorem bulk_destroy_unfiltered_refused (view : DestroyView)
    (h : view.filter_queryset view.get_queryset = view.get_queryset) :
    bulk_destroy view = (view.db, ⟨400, Option.none⟩) := by
  simp [bulk_destroy, h, allow_bulk_destroy]

/-- Witness for `bulk_destroy_unfiltered_refused` at a concrete view. -/
theorem bulk_destroy_unfiltered_refused_witness :
    exDestroyView.filter_queryset exDestroyView.get_queryset
        = exDestroyView.get_queryset ∧
    bulk_destroy exDestroyView = (exDestroyView.db, ⟨400, Option.none⟩) :=
  ⟨rfl, bulk_destroy_unfiltered_refused exDestroyView rfl⟩

/-- Claim C4: the default `allow_bulk_destroy` compares by object
identity, not content: it allows exactly when the filtered queryset is a
different object from the full one, and in particular it allows two
distinct queryset objects with identical contents. -/
theorem allow_bulk_destroy_identity_only :
    (∀ qs filtered : QuerySet,
      allow_bulk_destroy qs filtered = true ↔ qs.refId ≠ filtered.refId) ∧
    (∀ (items : List Nat) (i j : Nat), i ≠ j →
      allow_bulk_destroy ⟨i, items⟩ ⟨j, items⟩ = true) := by
  constructor
  · intro qs filtered
    simp [allow_bulk_destroy, bne_iff_ne]
  · intro items i j h
    simp only [allow_bulk_destroy, bne_iff_ne]
    exact h

/-- Witness for `allow_bulk_destroy_identity_only`: two distinct queryset
objects over the same records are allowed. -/
theorem allow_bulk_destroy_identity_only_witness :
    (0 : Nat) ≠ 1 ∧ allow_bulk_destroy ⟨0, [1, 2, 3]⟩ ⟨1, [1, 2, 3]⟩ = true :=
  ⟨by decide, allow_bulk_destroy_identity_only.2 [1, 2, 3] 0 1 (by decide)⟩

/-- Claim C5 (failing evaluation): the public `create` entry point never
reaches its shape dispatch: a two-record list payload and a single-record
payload both raise in the wrapper before `isinstance(data, list)` runs, on
views with and without the attribute defined, so neither the 201 bulk path
nor the delegation to the standard single-object path ever happens. -/
theorem create_never_dispatches :
    create exCreateViewWithNone [] ⟨.list [okRecord, okRecord], false⟩ [] []
      = .error .typeError ∧
    create exCreateViewWithNone [] ⟨.dict [("name", .str "a")], false⟩ [] []
      = .error .typeError ∧
    create exCreateView [] ⟨.list [okRecord], false⟩ [] []
      = .error .attributeError :=
  ⟨rfl, rfl, rfl⟩

/-- Claim C6 (failing evaluation): a bulk payload containing an invalid
record raises `TypeError` in the wrapper before the serializer ever runs,
for create and update alike, so the response is the framework's
unhandled-exception error rather than a client error aggregating
per-record validation messages — the aggregation the `many=True`
serializer would have produced on that payload is shown last. -/
theorem invalid_bulk_payload_raises_before_validation :
    create exCreateViewWithNone [] ⟨.list [badRecord, okRecord], false⟩ [] []
      = .error .typeError ∧
    bulk_update exUpdateView [] ⟨.list [badRecord, okRecord], false⟩ [] []
      = .error .typeError ∧
    manySerializerIsValid exValidateRecord (.vlist [badRecord, okRecord])
      = .error (.validationError [["name: This field is required."], []]) :=
  ⟨rfl, rfl, rfl⟩

/-- Claim C7: when the guard allows the destroy, `bulk_destroy` deletes
exactly the records of the filtered queryset — iterating it and invoking
the single-record delete hook per element — leaves every record outside
the filtered queryset untouched, and answers 204 with an empty body. -/
theorem bulk_destroy_deletes_exactly_filtered (view : DestroyView)
    (h : allow_bulk_destroy view.get_queryset
        (view.filter_queryset view.get_queryset) = true) :
    (bulk_destroy view).1 = view.db.filter
        (fun r => !((view.filter_queryset view.get_queryset).items.contains r)) ∧
    (∀ r : Nat, r ∈ (bulk_destroy view).1 ↔
        r ∈ view.db ∧ r ∉ (view.filter_queryset view.get_queryset).items) ∧
    (bulk_destroy view).2 = ⟨204, Option.none⟩ := by
  have hb : bulk_destroy view =
      (perform_bulk_destroy view.db (view.filter_queryset view.get_queryset),
        ⟨204, Option.none⟩) := by
    simp [bulk_destroy, h]
  refine ⟨?_, ?_, by rw [hb]⟩
  · rw [hb]
    exact perform_bulk_destroy_eq_filter _ _
  · intro r
    rw [hb]
    simp [perform_bulk_destroy_eq_filter, List.mem_filter]

/-- Witness for `bulk_destroy_deletes_exactly_filtered` on the spec's own
example: database {1,2,3,4,5}, filter selecting {2,4}. -/
theorem bulk_destroy_deletes_exactly_filtered_witness :
    allow_bulk_destroy exDestroyViewFiltered.get_queryset
        (exDestroyViewFiltered.filter_queryset exDestroyViewFiltered.get_queryset)
      = true ∧
    (bulk_destroy exDestroyViewFiltered).1 = [1, 3, 5] ∧
    (bulk_destroy exDestroyViewFiltered).2 = ⟨204, Option.none⟩ := by
  have h := bulk_destroy_deletes_exactly_filtered exDestroyViewFiltered rfl
  refine ⟨rfl, ?_, h.2.2⟩
  rw [h.1]
  rfl

/-- Claim C8 (failing evaluation): the public `bulk_update` entry point
raises `TypeError` in the wrapper on every payload shape — a valid list, a
single record, a configured-field payload — so the `many=True` serializer
is never built over the filtered queryset and no 200 response with updated
representations is ever produced. -/
theorem bulk_update_never_succeeds :
    bulk_update exUpdateView [] ⟨.list [okRecord, okRecord], false⟩ [] []
      = .error .typeError ∧
    bulk_update exUpdateView [] ⟨.dict [("name", .str "a")], false⟩ []
        [("partial", .bool false)]
      = .error .typeError ∧
    bulk_update exUpdateViewCsv []
        ⟨.dict [("csv_file", .vlist [okRecord, okRecord])], false⟩ [] []
      = .error .typeError :=
  ⟨rfl, rfl, rfl⟩

/-- Claim C9: `partial_bulk_update` only sets `kwargs['partial'] = True`
and calls the same decorated `bulk_update` path with otherwise identical
arguments; the `partial` flag that `bulk_update`'s body pops from those
keyword arguments is then `True`. -/
theorem partial_bulk_update_delegates (uv : UpdateView) (db : List PyVal)
    (request : Request) (args : List PyVal) (kwargs : KwArgs) :
    partial_bulk_update uv db request args kwargs =
      bulk_update uv db request args (dictSet kwargs "partial" (.bool true)) ∧
    (dictPop (dictSet kwargs "partial" (.bool true)) "partial"
        (.bool false)).1 = .bool true :=
  ⟨rfl, dictPop_dictSet kwargs "partial" (.bool true) (.bool false)⟩

/-- Claim C10: when the lookup identifier is absent from the request's URL
kwargs, `get_object` returns `None` rather than raising a not-found error;
when it is present, the standard single-object lookup's outcome is passed
through unchanged (its object, or its exception such as `Http404`). -/
theorem get_object_none_or_delegates (uv : UpdateView) :
    (uv.kwargs.any
        (fun p => p.1 == pyOrStr uv.lookup_url_kwarg uv.lookup_field) = false →
      get_object uv = .ok Option.none) ∧
    (∀ obj, uv.kwargs.any
        (fun p => p.1 == pyOrStr uv.lookup_url_kwarg uv.lookup_field) = true →
      uv.super_get_object = .ok obj →
      get_object uv = .ok (some obj)) ∧
    (∀ e, uv.kwargs.any
        (fun p => p.1 == pyOrStr uv.lookup_url_kwarg uv.lookup_field) = true →
      uv.super_get_object = .error e →
      get_object uv = .error e) := by
  refine ⟨?_, ?_, ?_⟩
  · intro h
    simp [get_object, h]
  · intro obj h hs
    simp [get_object, h, hs]
  · intro e h hs
    simp [get_object, h, hs]

/-- Witness for `get_object_none_or_delegates`: a view without the lookup
kwarg answers `None`; one with it delegates to the standard lookup. -/
theorem get_object_none_or_delegates_witness :
    get_object exUpdateView = .ok Option.none ∧
    get_object exUpdateViewWithPk = .ok (some (.vdict [("pk", .str "1")])) :=
  ⟨(get_object_none_or_delegates exUpdateView).1 rfl,
   (get_object_none_or_delegates exUpdateViewWithPk).2.1 _ rfl rfl⟩

end BulkMixins
